import Mathlib

/-!
Verification development for the code-modernization analyzer repository.

Part 1 embeds the VS Code extension (`src/vs_code_extension.js`) as a pure
trace model: the `rag.askQuestion` command handler is a function from the
input-box result and the child-process outcome to the list of observable
actions it performs, in order.

Part 2 models the analysis engine.  The engine itself (the Python static
analyzer the readme describes) is not present in the repository sources;
its behaviour is modelled from the specification's words, as noted on each
definition.
-/

/-! ## Part 1: the VS Code extension (`src/vs_code_extension.js`) -/

/-- An observable action the extension can perform.  `spawnShell` is
`exec(cmd, ...)`, `showInfo` is `vscode.window.showInformationMessage`,
`showError` is `vscode.window.showErrorMessage`.  `readFile` is in the
vocabulary so that claims about file reading can be stated; the handler in
`src/vs_code_extension.js` never performs it. -/
inductive ExtAction where
  | spawnShell (cmd : String)
  | showInfo (msg : String)
  | showError (msg : String)
  | readFile (path : String)
deriving DecidableEq, Repr

/-- Whether an action reads a file. -/
def ExtAction.readsFile : ExtAction → Bool
  | .readFile _ => true
  | _ => false

/-- Whether an action spawns a child process. -/
def ExtAction.spawns : ExtAction → Bool
  | .spawnShell _ => true
  | _ => false

/-- Whether an action shows a message (information or error). -/
def ExtAction.showsMessage : ExtAction → Bool
  | .showInfo _ => true
  | .showError _ => true
  | _ => false

/-- Outcome of the `exec` callback in `src/vs_code_extension.js`:
either `error` was non-null, or the process succeeded with `stdout`. -/
inductive ExecOutcome where
  | ok (stdout : String)
  | failed
deriving DecidableEq, Repr

/-- The shell command string built at `src/vs_code_extension.js:14`:
the template literal `python rag_engine.py "${question}"`. -/
def buildCommand (question : String) : String :=
  "python rag_engine.py \"" ++ question ++ "\""

/-- The `rag.askQuestion` handler registered in `activate`
(`src/vs_code_extension.js:4-28`), as the ordered list of actions it
performs.  `question` is the resolved value of `showInputBox` (`none` when
the user cancels); JavaScript `if (!question) return;` treats both
`undefined` and the empty string as falsy. -/
def askQuestionHandler (question : Option String) (outcome : ExecOutcome) :
    List ExtAction :=
  match question with
  | none => []
  | some q =>
    if q = "" then []
    else
      ExtAction.spawnShell (buildCommand q) ::
        (match outcome with
         | .failed => [ExtAction.showError "Error running RAG"]
         | .ok stdout => [ExtAction.showInfo stdout])

/-- A POSIX-style splitting of a shell command string into words: a space
outside double quotes separates words, a double quote toggles quoting and
is consumed.  Used to state what arguments a spawned command line conveys. -/
def shellSplitAux : List Char → Bool → String → List String → List String
  | [], _, cur, acc => if cur = "" then acc.reverse else (cur :: acc).reverse
  | c :: rest, inQ, cur, acc =>
    if c = '"' then shellSplitAux rest (!inQ) cur acc
    else if c = ' ' ∧ inQ = false then
      if cur = "" then shellSplitAux rest inQ "" acc
      else shellSplitAux rest inQ "" (cur :: acc)
    else shellSplitAux rest inQ (cur.push c) acc

/-- Split a full shell command string into its words. -/
def shellSplit (s : String) : List String :=
  shellSplitAux s.data false "" []

/-! ## Part 2: the analysis engine, modelled from the spec

The Python analysis engine described by the readme and the spec is not
among the repository's source files (only the extension and the readme
are).  Every definition below is therefore modelled from the spec, as its
doc comment records. -/

/-- Modelled from the spec: Finding severity (spec section 3),
`info | warning | critical`. -/
inductive Severity where
  | info
  | warning
  | critical
deriving DecidableEq, Repr

/-- Modelled from the spec: the ordered risk classification
`Low < Medium < High < Critical` (spec glossary). -/
inductive RiskLevel where
  | Low
  | Medium
  | High
  | Critical
deriving DecidableEq, Repr

/-- Modelled from the spec: detected dialect, `legacy | current | unknown`
(spec section 3, Metrics). -/
inductive Dialect where
  | legacy
  | current
  | unknown
deriving DecidableEq, Repr

/-- Modelled from the spec: a test expression in the syntax tree; boolean
short-circuit operators are the decision-point-bearing expression forms
(spec section 4.2). -/
inductive Expr where
  | name (s : String)
  | boolAnd (a b : Expr)
  | boolOr (a b : Expr)
deriving DecidableEq, Repr

/-- Modelled from the spec: the `SyntaxTree` (spec section 3), a structural
representation of the analyzed unit.  Statement sequencing is explicit via
`seq`/`pass`; each exception-handling clause is one `tryHandler` node. -/
inductive Stmt where
  | pass
  | seq (a b : Stmt)
  | exprStmt (e : Expr)
  | ifStmt (test : Expr) (body orelse : Stmt)
  | whileStmt (test : Expr) (body : Stmt)
  | forStmt (body : Stmt)
  | tryHandler (bare : Bool) (body : Stmt)
  | funcDef (name : String) (body : Stmt)
  | classDef (name : String) (body : Stmt)
  | importStmt (module : String) (wildcard : Bool)
deriving DecidableEq, Repr

/-- Modelled from the spec: decision points contributed by an expression —
each boolean short-circuit operator contributes exactly one
(spec section 4.2). -/
def exprDecisions : Expr → Nat
  | .name _ => 0
  | .boolAnd a b => 1 + exprDecisions a + exprDecisions b
  | .boolOr a b => 1 + exprDecisions a + exprDecisions b

/-- Modelled from the spec: decision points contributed by a statement —
each conditional branch, each loop, each exception-handling clause
contributes exactly one (spec section 4.2). -/
def stmtDecisions : Stmt → Nat
  | .pass => 0
  | .seq a b => stmtDecisions a + stmtDecisions b
  | .exprStmt e => exprDecisions e
  | .ifStmt t b e => 1 + exprDecisions t + stmtDecisions b + stmtDecisions e
  | .whileStmt t b => 1 + exprDecisions t + stmtDecisions b
  | .forStmt b => 1 + stmtDecisions b
  | .tryHandler _ b => 1 + stmtDecisions b
  | .funcDef _ b => stmtDecisions b
  | .classDef _ b => stmtDecisions b
  | .importStmt _ _ => 0

/-- Modelled from the spec: cyclomatic complexity = 1 + count of decision
points (spec section 4.2). -/
def cyclomaticComplexity (t : Stmt) : Nat :=
  1 + stmtDecisions t

/-- Modelled from the spec: maximum nesting depth — the deepest chain of
nested compound blocks (conditionals, loops, exception handlers,
function/class bodies) (spec section 4.2). -/
def nestingDepth : Stmt → Nat
  | .pass => 0
  | .seq a b => max (nestingDepth a) (nestingDepth b)
  | .exprStmt _ => 0
  | .ifStmt _ b e => 1 + max (nestingDepth b) (nestingDepth e)
  | .whileStmt _ b => 1 + nestingDepth b
  | .forStmt b => 1 + nestingDepth b
  | .tryHandler _ b => 1 + nestingDepth b
  | .funcDef _ b => 1 + nestingDepth b
  | .classDef _ b => 1 + nestingDepth b
  | .importStmt _ _ => 0

/-- A one-hole statement context: a syntax tree with one statement-shaped
hole, used to state that decision points may be added anywhere in
otherwise-identical source. -/
inductive Ctx where
  | hole
  | seqL (c : Ctx) (t : Stmt)
  | seqR (s : Stmt) (c : Ctx)
  | inIfBody (test : Expr) (c : Ctx) (orelse : Stmt)
  | inIfElse (test : Expr) (body : Stmt) (c : Ctx)
  | inWhile (test : Expr) (c : Ctx)
  | inFor (c : Ctx)
  | inHandler (bare : Bool) (c : Ctx)
  | inFunc (name : String) (c : Ctx)
  | inClass (name : String) (c : Ctx)
deriving DecidableEq, Repr

/-- Plug a statement into the hole of a context. -/
def Ctx.plug : Ctx → Stmt → Stmt
  | .hole, s => s
  | .seqL c t, s => .seq (c.plug s) t
  | .seqR a c, s => .seq a (c.plug s)
  | .inIfBody t c e, s => .ifStmt t (c.plug s) e
  | .inIfElse t b c, s => .ifStmt t b (c.plug s)
  | .inWhile t c, s => .whileStmt t (c.plug s)
  | .inFor c, s => .forStmt (c.plug s)
  | .inHandler bare c, s => .tryHandler bare (c.plug s)
  | .inFunc n c, s => .funcDef n (c.plug s)
  | .inClass n c, s => .classDef n (c.plug s)

/-- Whether a character is whitespace (space, tab, carriage return or
newline). -/
def charIsSpace (c : Char) : Bool :=
  c = ' ' ∨ c = '\t' ∨ c = '\r' ∨ c = '\n'

/-- Strip leading and trailing whitespace from a character list. -/
def trimChars (l : List Char) : List Char :=
  ((l.dropWhile charIsSpace).reverse.dropWhile charIsSpace).reverse

/-- Strip leading and trailing whitespace from a string. -/
def strTrim (s : String) : String :=
  String.mk (trimChars s.data)

/-- Whether `p` is a prefix of `s`. -/
def strStartsWith (s p : String) : Bool :=
  p.data.isPrefixOf s.data

/-- Drop the first `n` characters of `s`. -/
def strDrop (s : String) (n : Nat) : String :=
  String.mk (s.data.drop n)

/-- Whether `pat` occurs as a contiguous sublist of `l`. -/
def occursIn (pat : List Char) : List Char → Bool
  | [] => pat.isEmpty
  | c :: rest => pat.isPrefixOf (c :: rest) || occursIn pat rest

/-- Count the positions of `l` at which `pat` occurs. -/
def countOccur (pat : List Char) : List Char → Nat
  | [] => 0
  | c :: rest =>
    (if pat.isPrefixOf (c :: rest) then 1 else 0) + countOccur pat rest

/-- Split a character list into lines at newline characters; `cur` holds
the current line, reversed. -/
def splitLinesAux : List Char → List Char → List String
  | [], cur => [String.mk cur.reverse]
  | c :: rest, cur =>
    if c = '\n' then String.mk cur.reverse :: splitLinesAux rest []
    else splitLinesAux rest (c :: cur)

/-- Split raw text into lines; the empty text has no lines. -/
def splitLines (s : String) : List String :=
  if s = "" then [] else splitLinesAux s.data []

/-- A line is blank when it contains only whitespace. -/
def isBlankLine (l : String) : Bool :=
  trimChars l.data = []

/-- A line is a comment line when its first non-whitespace character
starts a comment. -/
def isCommentLine (l : String) : Bool :=
  strStartsWith (strTrim l) "#"

/-- Whether `pat` occurs as a substring of `s`. -/
def containsSub (s pat : String) : Bool :=
  occursIn pat.data s.data

/-- Count the occurrences of `pat` in `s`. -/
def countSub (s pat : String) : Nat :=
  countOccur pat.data s.data

/-- Net parenthesis nesting change contributed by one line. -/
def lineDelta (l : String) : Int :=
  (l.data.filter (fun c => c = '(')).length -
    (l.data.filter (fun c => c = ')')).length

/-- Modelled from the spec: the parse failure marker — a diagnostic
message and the offending line if determinable (spec section 4.1). -/
structure ParseFailure where
  message : String
  line : Option Nat
deriving DecidableEq, Repr

/-- Scan lines keeping a running parenthesis depth; report the first line
where depth goes negative, or an unlocatable failure when the text ends at
positive depth. -/
def scanBalance : List String → Int → Nat → Option (Option Nat)
  | [], d, _ => if d = 0 then none else some none
  | l :: rest, d, n =>
    let d2 := d + lineDelta l
    if d2 < 0 then some (some n) else scanBalance rest d2 (n + 1)

/-- The first word of a line fragment: up to a space, `(` or `:`. -/
def takeName (t : String) : String :=
  String.mk (t.data.takeWhile fun c => !(c == ' ' || c == '(' || c == ':'))

/-- Build the test expression for a condition line: a chain of one
short-circuit operator per occurrence of an `and`/`or` keyword. -/
def mkBoolChain : Nat → Expr
  | 0 => .name "x"
  | n + 1 => .boolAnd (.name "x") (mkBoolChain n)

/-- The test expression read off a condition line. -/
def lineTest (t : String) : Expr :=
  mkBoolChain (countSub t " and " + countSub t " or ")

/-- Modelled from the spec: translation of one source line into a
statement of the miniature grammar, keyed on the line's leading keyword.
The spec leaves the target grammar itself out of scope (it is Python per
the readme); the model uses a flat line-keyword grammar that preserves the
constructs the metrics and rules consume. -/
def parseLine (l : String) : Stmt :=
  let t := strTrim l
  if t = "" then .pass
  else if strStartsWith t "#" then .pass
  else if strStartsWith t "def " then .funcDef (takeName (strDrop t 4)) .pass
  else if strStartsWith t "class " then .classDef (takeName (strDrop t 6)) .pass
  else if strStartsWith t "if " then .ifStmt (lineTest t) .pass .pass
  else if strStartsWith t "elif " then .ifStmt (lineTest t) .pass .pass
  else if strStartsWith t "while " then .whileStmt (lineTest t) .pass
  else if strStartsWith t "for " then .forStmt .pass
  else if strStartsWith t "except:" then .tryHandler true .pass
  else if strStartsWith t "except " then .tryHandler false .pass
  else if strStartsWith t "import " then .importStmt (takeName (strDrop t 7)) false
  else if strStartsWith t "from " then
    .importStmt (takeName (strDrop t 5)) (containsSub t "import *")
  else .exprStmt (.name t)

/-- Fold the per-line statements into one tree. -/
def translateLines (ls : List String) : Stmt :=
  (ls.map parseLine).foldr Stmt.seq Stmt.pass

/-- Modelled from the spec: the Parser Adapter (spec section 4.1) — given
raw text, produce a SyntaxTree or a parse-failure marker; as a total
function it can never raise, parse failure is returned as data. -/
def parseSource (text : String) : Except ParseFailure Stmt :=
  match scanBalance (splitLines text) 0 1 with
  | some bad => .error ⟨"unbalanced parentheses", bad⟩
  | none => .ok (translateLines (splitLines text))

/-- Modelled from the spec: legacy-only surface markers (spec section 4.1
names a print-statement form and a distinct operator as examples): a
`print` statement without call parentheses, or the old inequality
operator. -/
def hasLegacyMarker (text : String) : Bool :=
  (splitLines text).any fun l =>
    (strStartsWith (strTrim l) "print " ∧ containsSub l "print(" = false) ∨
      containsSub l "<>"

/-- Modelled from the spec: dialect sniffing policy (spec section 4.1) —
any legacy-only marker gives `legacy`; else a clean parse gives `current`;
else `unknown`. -/
def sniffDialect (text : String) (parsedOk : Bool) : Dialect :=
  if hasLegacyMarker text then .legacy
  else if parsedOk then .current
  else .unknown

/-- Modelled from the spec: the Metrics record (spec section 3).  All
counts are naturals; tree-derived fields are `Option`-valued, `none` being
the documented "unavailable" sentinel used when no SyntaxTree exists. -/
structure Metrics where
  totalLines : Nat
  codeLines : Nat
  commentLines : Nat
  blankLines : Nat
  cyclomaticComplexity : Option Nat
  maxNestingDepth : Option Nat
  functionCount : Option Nat
  classCount : Option Nat
  avgFunctionLength : Option ℚ
  importCount : Option Nat
  dialect : Dialect
deriving DecidableEq, Repr

/-- Number of functions defined in a tree. -/
def functionCountOf : Stmt → Nat
  | .seq a b => functionCountOf a + functionCountOf b
  | .funcDef _ b => 1 + functionCountOf b
  | .classDef _ b => functionCountOf b
  | .ifStmt _ b e => functionCountOf b + functionCountOf e
  | .whileStmt _ b => functionCountOf b
  | .forStmt b => functionCountOf b
  | .tryHandler _ b => functionCountOf b
  | _ => 0

/-- Number of classes defined in a tree. -/
def classCountOf : Stmt → Nat
  | .seq a b => classCountOf a + classCountOf b
  | .funcDef _ b => classCountOf b
  | .classDef _ b => 1 + classCountOf b
  | .ifStmt _ b e => classCountOf b + classCountOf e
  | .whileStmt _ b => classCountOf b
  | .forStmt b => classCountOf b
  | .tryHandler _ b => classCountOf b
  | _ => 0

/-- The imported module names occurring in a tree, in order. -/
def importsOf : Stmt → List String
  | .seq a b => importsOf a ++ importsOf b
  | .importStmt m _ => [m]
  | .funcDef _ b => importsOf b
  | .classDef _ b => importsOf b
  | .ifStmt _ b e => importsOf b ++ importsOf e
  | .whileStmt _ b => importsOf b
  | .forStmt b => importsOf b
  | .tryHandler _ b => importsOf b
  | _ => []

/-- Number of atomic statements in a tree (for function-length spans). -/
def atomCount : Stmt → Nat
  | .pass => 0
  | .seq a b => atomCount a + atomCount b
  | .exprStmt _ => 1
  | .ifStmt _ b e => 1 + atomCount b + atomCount e
  | .whileStmt _ b => 1 + atomCount b
  | .forStmt b => 1 + atomCount b
  | .tryHandler _ b => 1 + atomCount b
  | .funcDef _ b => 1 + atomCount b
  | .classDef _ b => 1 + atomCount b
  | .importStmt _ _ => 1

/-- The statement-span sizes of the functions in a tree. -/
def functionSpans : Stmt → List Nat
  | .seq a b => functionSpans a ++ functionSpans b
  | .funcDef _ b => [atomCount b] ++ functionSpans b
  | .classDef _ b => functionSpans b
  | .ifStmt _ b e => functionSpans b ++ functionSpans e
  | .whileStmt _ b => functionSpans b
  | .forStmt b => functionSpans b
  | .tryHandler _ b => functionSpans b
  | _ => []

/-- Modelled from the spec: average function length — the mean of
per-function statement spans, functions with zero statements excluded from
the denominator, rounded to one decimal (spec section 4.2); `none` when no
function qualifies. -/
def avgFunctionLengthOf (t : Stmt) : Option ℚ :=
  let spans := (functionSpans t).filter (fun n => n ≠ 0)
  if spans.length = 0 then none
  else
    let mean : ℚ := (spans.map (fun n => (n : ℚ))).sum / (spans.length : ℚ)
    some ((round (10 * mean) : ℤ) / 10)

/-- Modelled from the spec: the Metrics Extractor (spec section 4.2).
Line-count fields come from raw text alone; tree-derived fields are
computed only when a SyntaxTree exists and otherwise take the
"unavailable" sentinel. -/
def computeMetrics (text : String) (tree : Option Stmt) (d : Dialect) :
    Metrics :=
  let ls := splitLines text
  { totalLines := ls.length
    codeLines :=
      (ls.filter fun l => isBlankLine l = false ∧ isCommentLine l = false).length
    commentLines :=
      (ls.filter fun l => isBlankLine l = false ∧ isCommentLine l = true).length
    blankLines := (ls.filter fun l => isBlankLine l = true).length
    cyclomaticComplexity := tree.map cyclomaticComplexity
    maxNestingDepth := tree.map nestingDepth
    functionCount := tree.map functionCountOf
    classCount := tree.map classCountOf
    avgFunctionLength := tree.bind avgFunctionLengthOf
    importCount := tree.map fun t => (importsOf t).dedup.length
    dialect := d }

/-- Modelled from the spec: a Finding (spec section 3) — a category tag, a
severity, an optional source location (a line number), and a description. -/
structure Finding where
  category : String
  severity : Severity
  location : Option Nat
  description : String
deriving DecidableEq, Repr

/-- Modelled from the spec: the configuration surface (spec section 6) —
externally supplied thresholds with documented defaults, plus the
timestamp source, which must be part of the configuration because the
spec requires the Report (timestamp included) to be a deterministic
function of input and configuration (spec section 8). -/
structure Config where
  maxLineLen : Nat := 100
  maxFuncStmts : Nat := 30
  maxNesting : Nat := 4
  maxDeps : Nat := 10
  maxGlobals : Nat := 5
  commentBlockRun : Nat := 5
  clock : Nat := 0
deriving DecidableEq, Repr

/-- The default configuration. -/
def defaultConfig : Config := {}

/-- Lines paired with their 1-based line numbers. -/
def numberedLines (ls : List String) : List (Nat × String) :=
  ls.enum.map fun p => (p.1 + 1, p.2)

/-- Modelled from the spec: dynamic-code-execution constructs, severity
`critical` (spec section 4.3); one Finding per offending line. -/
def ruleDynamicExec (ls : List String) : List Finding :=
  (numberedLines ls).filterMap fun p =>
    if containsSub p.2 "eval(" ∨ containsSub p.2 "exec(" then
      some ⟨"dynamic-code-execution", .critical, some p.1,
        "dynamic code execution construct"⟩
    else none

/-- Modelled from the spec: bare/overly broad exception handlers, severity
`warning` (spec section 4.3). -/
def ruleBareExcept (ls : List String) : List Finding :=
  (numberedLines ls).filterMap fun p =>
    if strStartsWith (strTrim p.2) "except:" then
      some ⟨"bare-except", .warning, some p.1, "bare exception handler"⟩
    else none

/-- Modelled from the spec: excessive module-level mutable state,
threshold-configurable, severity `warning` (spec section 4.3). -/
def ruleGlobals (cfg : Config) (ls : List String) : List Finding :=
  if (ls.filter fun l => strStartsWith (strTrim l) "global ").length > cfg.maxGlobals
  then [⟨"excessive-global-state", .warning, none,
    "excessive module-level mutable state"⟩]
  else []

/-- Modelled from the spec: wildcard imports, severity `warning`
(spec section 4.3). -/
def ruleWildcardImport (ls : List String) : List Finding :=
  (numberedLines ls).filterMap fun p =>
    if containsSub p.2 "import *" then
      some ⟨"wildcard-import", .warning, some p.1, "wildcard import"⟩
    else none

/-- Modelled from the spec: mutable default arguments in function
signatures, severity `warning` (spec section 4.3). -/
def ruleMutableDefault (ls : List String) : List Finding :=
  (numberedLines ls).filterMap fun p =>
    if strStartsWith (strTrim p.2) "def " ∧
        (containsSub p.2 "=[]" ∨ containsSub p.2 "=\x7b\x7d") then
      some ⟨"mutable-default-argument", .warning, some p.1,
        "mutable default argument"⟩
    else none

/-- Modelled from the spec: functions exceeding a configurable length
threshold, severity `info`; requires a tree, contributing nothing when it
is unavailable (spec section 4.3). -/
def ruleLongFunction (cfg : Config) (tree : Option Stmt) : List Finding :=
  match tree with
  | none => []
  | some t =>
    (functionSpans t).filterMap fun n =>
      if n > cfg.maxFuncStmts then
        some ⟨"long-function", .info, none, "function exceeds length threshold"⟩
      else none

/-- Modelled from the spec: lines exceeding a configurable character-length
threshold, severity `info` (spec section 4.3). -/
def ruleLongLines (cfg : Config) (ls : List String) : List Finding :=
  (numberedLines ls).filterMap fun p =>
    if p.2.length > cfg.maxLineLen then
      some ⟨"long-line", .info, some p.1, "line exceeds length threshold"⟩
    else none

/-- Modelled from the spec: nesting depth exceeding a configurable
threshold, severity `warning`; requires a tree, contributing nothing when
it is unavailable (spec section 4.3). -/
def ruleDeepNesting (cfg : Config) (tree : Option Stmt) : List Finding :=
  match tree with
  | none => []
  | some t =>
    if nestingDepth t > cfg.maxNesting then
      [⟨"deep-nesting", .warning, none, "nesting depth exceeds threshold"⟩]
    else []

/-- The longest run of consecutive comment lines. -/
def maxCommentRun (ls : List String) : Nat :=
  (ls.foldl
    (fun p l =>
      if isCommentLine l then (max p.1 (p.2 + 1), p.2 + 1) else (p.1, 0))
    ((0 : Nat), (0 : Nat))).1

/-- Modelled from the spec: large blocks of commented-out code, severity
`info` (spec section 4.3): a run of consecutive comment lines strictly
longer than the configured threshold. -/
def ruleCommentBlock (cfg : Config) (ls : List String) : List Finding :=
  if maxCommentRun ls > cfg.commentBlockRun then
    [⟨"commented-out-code", .info, none, "large block of commented-out code"⟩]
  else []

/-- The module name of an import line, when the line is one. -/
def importModuleOf (l : String) : Option String :=
  let t := strTrim l
  if strStartsWith t "import " then some (takeName (strDrop t 7))
  else if strStartsWith t "from " then some (takeName (strDrop t 5))
  else none

/-- Distinct imported module names read off the raw text. -/
def textImportCount (ls : List String) : Nat :=
  ((ls.filterMap importModuleOf).dedup).length

/-- Modelled from the spec: dependency count exceeding a configurable
threshold, severity `info` (spec section 4.3). -/
def ruleTooManyDeps (cfg : Config) (ls : List String) : List Finding :=
  if textImportCount ls > cfg.maxDeps then
    [⟨"too-many-dependencies", .info, none, "dependency count exceeds threshold"⟩]
  else []

/-- Modelled from the spec: legacy-dialect constructs, severity `warning`,
reusing the dialect sniff (spec sections 4.1 and 4.3). -/
def ruleLegacyDialect (text : String) : List Finding :=
  if hasLegacyMarker text then
    [⟨"legacy-dialect", .warning, none, "legacy dialect constructs"⟩]
  else []

/-- Modelled from the spec: the Pattern Detector (spec section 4.3) — the
fixed catalog of independent pure rules over (text, tree), concatenated in
catalog declaration order.  A rule that needs an unavailable tree
contributes no Findings. -/
def detectFindings (cfg : Config) (text : String) (tree : Option Stmt) :
    List Finding :=
  let ls := splitLines text
  ruleDynamicExec ls ++ ruleBareExcept ls ++ ruleGlobals cfg ls ++
    ruleWildcardImport ls ++ ruleMutableDefault ls ++
    ruleLongFunction cfg tree ++ ruleLongLines cfg ls ++
    ruleDeepNesting cfg tree ++ ruleCommentBlock cfg ls ++
    ruleTooManyDeps cfg ls ++ ruleLegacyDialect text

/-- Modelled from the spec: the Scorecard (spec section 3) — maintainability
index (0-100, higher is better), technical debt score (0-100, higher is
worse), and the risk level. -/
structure Scorecard where
  maintainability : ℚ
  debtScore : ℚ
  riskLevel : RiskLevel
deriving DecidableEq, Repr

/-- Clamp a score to the interval [0, 100] (spec section 4.4). -/
def clamp0100 (x : ℚ) : ℚ :=
  max 0 (min 100 x)

/-- Modelled from the spec: the flat per-Finding maintainability penalty,
scaled by severity, `critical` > `warning` > `info` (spec section 4.4).
The spec leaves the exact coefficients open (section 9); the documented
choices here are 15, 5 and 1. -/
def sevPenalty : Severity → ℚ
  | .critical => 15
  | .warning => 5
  | .info => 1

/-- Modelled from the spec: the complexity penalty — diminishing but
unbounded as complexity grows (spec section 4.4); documented choice: the
harmonic-style sum of 10/i over the decision points beyond complexity 1. -/
def complexityPenalty (c : Nat) : ℚ :=
  ((List.range (c - 1)).map fun i => 10 / ((i : ℚ) + 1)).sum

/-- Modelled from the spec: the nesting-depth penalty (spec section 4.4);
documented choice: 3 points per level. -/
def nestingPenalty (d : Nat) : ℚ :=
  3 * d

/-- Modelled from the spec: maintainability index — starts at 100, reduced
by the complexity, nesting and per-Finding penalties, clamped to [0, 100]
(spec section 4.4).  Unavailable complexity defaults to the minimum 1 and
unavailable nesting to 0, so degraded metrics add no penalty. -/
def maintainabilityIndex (m : Metrics) (fs : List Finding) : ℚ :=
  clamp0100 (100 - complexityPenalty (m.cyclomaticComplexity.getD 1) -
    nestingPenalty (m.maxNestingDepth.getD 0) -
    (fs.map fun f => sevPenalty f.severity).sum)

/-- Modelled from the spec: the severity weights of the debt-side
severity-weighted Finding sum (spec section 4.4); documented choices:
10, 3 and 1. -/
def debtWeight : Severity → ℚ
  | .critical => 10
  | .warning => 3
  | .info => 1

/-- Modelled from the spec: technical debt score — a complement-style
combination of (100 - maintainability index) and the severity-weighted sum
of Finding counts, clamped to [0, 100] (spec section 4.4); documented
choice: half the complement plus twice the weighted sum. -/
def technicalDebtScore (mi : ℚ) (fs : List Finding) : ℚ :=
  clamp0100 ((100 - mi) / 2 + 2 * (fs.map fun f => debtWeight f.severity).sum)

/-- Whether a Finding list contains a `critical` Finding. -/
def hasCriticalFinding (fs : List Finding) : Bool :=
  fs.any fun f => f.severity = Severity.critical

/-- Modelled from the spec: risk-level assignment (spec section 4.4) — any
`critical` Finding forces at least `High`; otherwise the documented
threshold bands over (maintainability index, debt score) are tried in
priority order `Critical`, `High`, `Medium`, else `Low`, the first
matching band winning. -/
def assignRiskLevel (mi debt : ℚ) (hasCrit : Bool) : RiskLevel :=
  if hasCrit then
    if debt ≥ 75 ∨ mi ≤ 25 then .Critical else .High
  else if debt ≥ 75 ∨ mi ≤ 25 then .Critical
  else if debt ≥ 50 ∨ mi ≤ 50 then .High
  else if debt ≥ 25 ∨ mi ≤ 75 then .Medium
  else .Low

/-- Modelled from the spec: the Scoring Engine (spec section 4.4) — a pure
function of (Metrics, Findings) to a Scorecard. -/
def scoreOf (m : Metrics) (fs : List Finding) : Scorecard :=
  let mi := maintainabilityIndex m fs
  let debt := technicalDebtScore mi fs
  ⟨mi, debt, assignRiskLevel mi debt (hasCriticalFinding fs)⟩

/-- The remediation statement for one Finding category. -/
def remediationFor (f : Finding) : String :=
  "Address " ++ f.category

/-- Modelled from the spec: the Recommendation Generator (spec section
4.5) — recommendations for `critical` Findings first, then `warning`, then
`info`, then general score-band guidance, with no duplicate text per
category. -/
def recommendationsOf (fs : List Finding) (sc : Scorecard) : List String :=
  let bySev := fun s => (fs.filter fun f => f.severity = s).map remediationFor
  ((bySev .critical ++ bySev .warning ++ bySev .info).dedup) ++
    (if sc.maintainability < 50 then
      ["Reduce complexity to improve maintainability"] else [])

/-- Modelled from the spec: the SourceUnit (spec section 3) — a name/path
identifier and the raw text. -/
structure SourceUnit where
  name : String
  text : String
deriving DecidableEq, Repr

/-- Modelled from the spec: the Report (spec section 3) — the terminal
aggregate of SourceUnit identity, Metrics, Findings, Scorecard,
Recommendations and a timestamp, with the recorded parse failure, if any,
carried as data (spec section 7). -/
structure Report where
  unitName : String
  metrics : Metrics
  findings : List Finding
  scorecard : Scorecard
  recommendations : List String
  parseFailure : Option ParseFailure
  timestamp : Nat
deriving DecidableEq, Repr

/-- Modelled from the spec: the full analysis pipeline (spec section 2) —
Parser Adapter, then Metrics Extractor and Pattern Detector, then Scoring
Engine, Recommendation Generator and Report Assembler, as one total
function of the SourceUnit and the configuration. -/
def analyze (u : SourceUnit) (cfg : Config) : Report :=
  let parsed := parseSource u.text
  let tree : Option Stmt := parsed.toOption
  let pf : Option ParseFailure :=
    match parsed with
    | .error e => some e
    | .ok _ => none
  let d := sniffDialect u.text (pf = none)
  let m := computeMetrics u.text tree d
  let fs := detectFindings cfg u.text tree
  let sc := scoreOf m fs
  ⟨u.name, m, fs, sc, recommendationsOf fs sc, pf, cfg.clock⟩

/-- The spec's documented `Critical` band over (maintainability, debt):
debt at least 75 or maintainability at most 25 (spec section 4.4). -/
abbrev bandCritical (mi debt : ℚ) : Prop :=
  debt ≥ 75 ∨ mi ≤ 25

/-- The spec's documented `High` band: debt at least 50 or maintainability
at most 50 (spec section 4.4). -/
abbrev bandHigh (mi debt : ℚ) : Prop :=
  debt ≥ 50 ∨ mi ≤ 50

/-- The spec's documented `Medium` band: debt at least 25 or
maintainability at most 75 (spec section 4.4). -/
abbrev bandMedium (mi debt : ℚ) : Prop :=
  debt ≥ 25 ∨ mi ≤ 75

/-- A concrete Metrics record (the metrics of an empty, cleanly parsed
unit) used to instantiate theorems on explicit inputs. -/
def sampleMetrics : Metrics :=
  ⟨0, 0, 0, 0, some 1, some 0, some 0, some 0, none, some 0, Dialect.current⟩

/-- A concrete `critical` Finding used to instantiate theorems on explicit
inputs. -/
def sampleCritical : Finding :=
  ⟨"dynamic-code-execution", Severity.critical, some 1,
    "dynamic code execution construct"⟩

/-! ## Theorems -/

/-- Decision points of a plugged context decompose: the context contributes
a fixed amount plus the decision points of the plugged statement. -/
theorem stmtDecisions_plug (C : Ctx) (s : Stmt) :
    stmtDecisions (C.plug s) =
      stmtDecisions (C.plug Stmt.pass) + stmtDecisions s := by
  induction C with
  | hole => simp [Ctx.plug, stmtDecisions]
  | seqL c t ih => simp [Ctx.plug, stmtDecisions, ih]; omega
  | seqR a c ih => simp [Ctx.plug, stmtDecisions, ih]; omega
  | inIfBody t c e ih => simp [Ctx.plug, stmtDecisions, ih]; omega
  | inIfElse t b c ih => simp [Ctx.plug, stmtDecisions, ih]; omega
  | inWhile t c ih => simp [Ctx.plug, stmtDecisions, ih]; omega
  | inFor c ih => simp [Ctx.plug, stmtDecisions, ih]; omega
  | inHandler bare c ih => simp [Ctx.plug, stmtDecisions, ih]; omega
  | inFunc n c ih => simp [Ctx.plug, stmtDecisions, ih]
  | inClass n c ih => simp [Ctx.plug, stmtDecisions, ih]

/-- A clamped score is non-negative. -/
theorem clamp0100_nonneg (x : ℚ) : 0 ≤ clamp0100 x :=
  le_max_left 0 _

/-- A clamped score is at most 100. -/
theorem clamp0100_le (x : ℚ) : clamp0100 x ≤ 100 :=
  max_le (by norm_num) (min_le_left _ _)

/-- Claim C7: cyclomatic complexity is 1 plus the count of decision points,
is monotone non-decreasing when decision points are added anywhere in
otherwise-identical source, and adding one `if` branch (with a
decision-free test and empty branches) anywhere increases it by exactly
one. -/
theorem claim_C7_complexity_monotone :
    (∀ t, cyclomaticComplexity t = 1 + stmtDecisions t) ∧
    (∀ (C : Ctx) (t s : Stmt),
      cyclomaticComplexity (C.plug t) ≤
        cyclomaticComplexity (C.plug (Stmt.seq s t))) ∧
    (∀ (C : Ctx) (t : Stmt) (v : String),
      cyclomaticComplexity
          (C.plug (Stmt.seq (Stmt.ifStmt (Expr.name v) Stmt.pass Stmt.pass) t)) =
        cyclomaticComplexity (C.plug t) + 1) := by
  refine ⟨fun t => rfl, fun C t s => ?_, fun C t v => ?_⟩
  · unfold cyclomaticComplexity
    rw [stmtDecisions_plug C t, stmtDecisions_plug C (Stmt.seq s t)]
    simp [stmtDecisions]
  · unfold cyclomaticComplexity
    rw [stmtDecisions_plug C t,
      stmtDecisions_plug C (Stmt.seq (Stmt.ifStmt (Expr.name v) Stmt.pass Stmt.pass) t)]
    simp [stmtDecisions, exprDecisions]
    omega

/-- Claim C6: analysis is deterministic — identical SourceUnit and
identical configuration yield a bit-identical Report, timestamp included. -/
theorem claim_C6_deterministic (u v : SourceUnit) (c d : Config)
    (hu : u = v) (hc : c = d) : analyze u c = analyze v d := by
  subst hu; subst hc; rfl

/-- Witness for claim C6 at a concrete unit and configuration. -/
theorem claim_C6_deterministic_witness :
    analyze ⟨"m.py", "import os"⟩ defaultConfig =
      analyze ⟨"m.py", "import os"⟩ defaultConfig :=
  claim_C6_deterministic ⟨"m.py", "import os"⟩ ⟨"m.py", "import os"⟩
    defaultConfig defaultConfig rfl rfl

/-- Claim C5: for every input and configuration, the maintainability index
and the technical debt score of the resulting Scorecard lie in [0, 100]. -/
theorem claim_C5_scores_bounded (u : SourceUnit) (cfg : Config) :
    0 ≤ (analyze u cfg).scorecard.maintainability ∧
    (analyze u cfg).scorecard.maintainability ≤ 100 ∧
    0 ≤ (analyze u cfg).scorecard.debtScore ∧
    (analyze u cfg).scorecard.debtScore ≤ 100 :=
  ⟨clamp0100_nonneg _, clamp0100_le _, clamp0100_nonneg _, clamp0100_le _⟩

/-- Claim C3: whenever the Findings given to the Scoring Engine contain at
least one Finding of severity `critical`, the assigned risk level is
`High` or `Critical`, whatever the metrics and scores are. -/
theorem claim_C3_critical_forces_high (m : Metrics) (fs : List Finding)
    (h : ∃ f ∈ fs, f.severity = Severity.critical) :
    (scoreOf m fs).riskLevel = RiskLevel.High ∨
      (scoreOf m fs).riskLevel = RiskLevel.Critical := by
  have hc : hasCriticalFinding fs = true := by
    simp only [hasCriticalFinding, List.any_eq_true, decide_eq_true_eq]
    exact h
  simp only [scoreOf, hc, assignRiskLevel, if_true]
  split_ifs <;> simp

/-- Witness for claim C3 at a concrete metrics record and a single
`critical` Finding. -/
theorem claim_C3_critical_forces_high_witness :
    (scoreOf sampleMetrics [sampleCritical]).riskLevel = RiskLevel.High ∨
      (scoreOf sampleMetrics [sampleCritical]).riskLevel = RiskLevel.Critical :=
  claim_C3_critical_forces_high sampleMetrics [sampleCritical]
    ⟨sampleCritical, by decide, by decide⟩

/-- Claim C4: with no `critical` Finding present, the Scoring Engine
assigns the risk level by the documented threshold bands over
(maintainability index, debt score), tried in priority order `Critical`,
`High`, `Medium`, else `Low`, the first matching band winning; the
inclusive band comparisons make ties resolve toward the higher-risk band. -/
theorem claim_C4_risk_bands (m : Metrics) (fs : List Finding)
    (h : hasCriticalFinding fs = false) :
    ((scoreOf m fs).riskLevel = RiskLevel.Critical ↔
      bandCritical (scoreOf m fs).maintainability (scoreOf m fs).debtScore) ∧
    ((scoreOf m fs).riskLevel = RiskLevel.High ↔
      (¬ bandCritical (scoreOf m fs).maintainability (scoreOf m fs).debtScore ∧
        bandHigh (scoreOf m fs).maintainability (scoreOf m fs).debtScore)) ∧
    ((scoreOf m fs).riskLevel = RiskLevel.Medium ↔
      (¬ bandCritical (scoreOf m fs).maintainability (scoreOf m fs).debtScore ∧
        ¬ bandHigh (scoreOf m fs).maintainability (scoreOf m fs).debtScore ∧
        bandMedium (scoreOf m fs).maintainability (scoreOf m fs).debtScore)) ∧
    ((scoreOf m fs).riskLevel = RiskLevel.Low ↔
      (¬ bandCritical (scoreOf m fs).maintainability (scoreOf m fs).debtScore ∧
        ¬ bandHigh (scoreOf m fs).maintainability (scoreOf m fs).debtScore ∧
        ¬ bandMedium (scoreOf m fs).maintainability (scoreOf m fs).debtScore)) := by
  simp only [scoreOf, h, assignRiskLevel, bandCritical, bandHigh, bandMedium,
    Bool.false_eq_true, if_false]
  split_ifs with h1 h2 h3 <;> simp_all

/-- Witness for claim C4 at a concrete metrics record and an empty
Finding list. -/
theorem claim_C4_risk_bands_witness :
    ((scoreOf sampleMetrics []).riskLevel = RiskLevel.Critical ↔
      bandCritical (scoreOf sampleMetrics []).maintainability
        (scoreOf sampleMetrics []).debtScore) ∧
    ((scoreOf sampleMetrics []).riskLevel = RiskLevel.High ↔
      (¬ bandCritical (scoreOf sampleMetrics []).maintainability
          (scoreOf sampleMetrics []).debtScore ∧
        bandHigh (scoreOf sampleMetrics []).maintainability
          (scoreOf sampleMetrics []).debtScore)) ∧
    ((scoreOf sampleMetrics []).riskLevel = RiskLevel.Medium ↔
      (¬ bandCritical (scoreOf sampleMetrics []).maintainability
          (scoreOf sampleMetrics []).debtScore ∧
        ¬ bandHigh (scoreOf sampleMetrics []).maintainability
          (scoreOf sampleMetrics []).debtScore ∧
        bandMedium (scoreOf sampleMetrics []).maintainability
          (scoreOf sampleMetrics []).debtScore)) ∧
    ((scoreOf sampleMetrics []).riskLevel = RiskLevel.Low ↔
      (¬ bandCritical (scoreOf sampleMetrics []).maintainability
          (scoreOf sampleMetrics []).debtScore ∧
        ¬ bandHigh (scoreOf sampleMetrics []).maintainability
          (scoreOf sampleMetrics []).debtScore ∧
        ¬ bandMedium (scoreOf sampleMetrics []).maintainability
          (scoreOf sampleMetrics []).debtScore)) :=
  claim_C4_risk_bands sampleMetrics [] rfl

/-- Scoring the empty-unit metrics with no Findings yields the perfect
scorecard: index 100, debt 0, risk `Low`. -/
theorem scoreOf_sample_empty :
    scoreOf sampleMetrics [] = ⟨100, 0, RiskLevel.Low⟩ := by
  unfold scoreOf maintainabilityIndex technicalDebtScore assignRiskLevel
    hasCriticalFinding
  norm_num [sampleMetrics, complexityPenalty, nestingPenalty, clamp0100]

/-- Claim C2: analyzing a SourceUnit whose raw text is empty yields a
Report whose Metrics line counts are all zero, whose Findings list is
empty, whose maintainability index is exactly 100, whose technical debt
score is exactly 0, and whose risk level is `Low`. -/
theorem claim_C2_empty_source (u : SourceUnit) (cfg : Config)
    (h : u.text = "") :
    (analyze u cfg).metrics.totalLines = 0 ∧
    (analyze u cfg).metrics.codeLines = 0 ∧
    (analyze u cfg).metrics.commentLines = 0 ∧
    (analyze u cfg).metrics.blankLines = 0 ∧
    (analyze u cfg).findings = [] ∧
    (analyze u cfg).scorecard.maintainability = 100 ∧
    (analyze u cfg).scorecard.debtScore = 0 ∧
    (analyze u cfg).scorecard.riskLevel = RiskLevel.Low := by
  obtain ⟨n, t⟩ := u
  simp only at h
  subst h
  have hsc : (analyze ⟨n, ""⟩ cfg).scorecard = scoreOf sampleMetrics [] := rfl
  rw [scoreOf_sample_empty] at hsc
  exact ⟨rfl, rfl, rfl, rfl, rfl, by rw [hsc], by rw [hsc], by rw [hsc]⟩

/-- Witness for claim C2 at a concrete empty unit and the default
configuration. -/
theorem claim_C2_empty_source_witness :
    (analyze ⟨"empty.py", ""⟩ defaultConfig).metrics.totalLines = 0 ∧
    (analyze ⟨"empty.py", ""⟩ defaultConfig).metrics.codeLines = 0 ∧
    (analyze ⟨"empty.py", ""⟩ defaultConfig).metrics.commentLines = 0 ∧
    (analyze ⟨"empty.py", ""⟩ defaultConfig).metrics.blankLines = 0 ∧
    (analyze ⟨"empty.py", ""⟩ defaultConfig).findings = [] ∧
    (analyze ⟨"empty.py", ""⟩ defaultConfig).scorecard.maintainability = 100 ∧
    (analyze ⟨"empty.py", ""⟩ defaultConfig).scorecard.debtScore = 0 ∧
    (analyze ⟨"empty.py", ""⟩ defaultConfig).scorecard.riskLevel = RiskLevel.Low :=
  claim_C2_empty_source ⟨"empty.py", ""⟩ defaultConfig rfl

/-- Claim C8: the pipeline is a total function, so no input text can make
it raise; when parsing fails, the analysis still produces a Report that
records the ParseFailure as data and carries degraded raw-text-only
Metrics: every tree-derived field is the "unavailable" sentinel and the
line counts are computed from the raw text alone. -/
theorem claim_C8_parse_failure_report (u : SourceUnit) (cfg : Config)
    (e : ParseFailure) (h : parseSource u.text = Except.error e) :
    (analyze u cfg).parseFailure = some e ∧
    (analyze u cfg).metrics.cyclomaticComplexity = none ∧
    (analyze u cfg).metrics.maxNestingDepth = none ∧
    (analyze u cfg).metrics.functionCount = none ∧
    (analyze u cfg).metrics.classCount = none ∧
    (analyze u cfg).metrics.avgFunctionLength = none ∧
    (analyze u cfg).metrics.importCount = none ∧
    (analyze u cfg).metrics.totalLines = (splitLines u.text).length ∧
    (analyze u cfg).metrics.blankLines =
      ((splitLines u.text).filter fun l => isBlankLine l = true).length ∧
    (analyze u cfg).metrics.commentLines =
      ((splitLines u.text).filter fun l =>
        isBlankLine l = false ∧ isCommentLine l = true).length ∧
    (analyze u cfg).metrics.codeLines =
      ((splitLines u.text).filter fun l =>
        isBlankLine l = false ∧ isCommentLine l = false).length := by
  simp [analyze, h, computeMetrics, Except.toOption]

/-- Witness for claim C8 at a concrete unparsable unit (an unbalanced
opening parenthesis). -/
theorem claim_C8_parse_failure_report_witness :
    (analyze ⟨"bad.py", "("⟩ defaultConfig).parseFailure =
      some ⟨"unbalanced parentheses", none⟩ ∧
    (analyze ⟨"bad.py", "("⟩ defaultConfig).metrics.cyclomaticComplexity = none ∧
    (analyze ⟨"bad.py", "("⟩ defaultConfig).metrics.maxNestingDepth = none ∧
    (analyze ⟨"bad.py", "("⟩ defaultConfig).metrics.functionCount = none ∧
    (analyze ⟨"bad.py", "("⟩ defaultConfig).metrics.classCount = none ∧
    (analyze ⟨"bad.py", "("⟩ defaultConfig).metrics.avgFunctionLength = none ∧
    (analyze ⟨"bad.py", "("⟩ defaultConfig).metrics.importCount = none ∧
    (analyze ⟨"bad.py", "("⟩ defaultConfig).metrics.totalLines =
      (splitLines "(").length ∧
    (analyze ⟨"bad.py", "("⟩ defaultConfig).metrics.blankLines =
      ((splitLines "(").filter fun l => isBlankLine l = true).length ∧
    (analyze ⟨"bad.py", "("⟩ defaultConfig).metrics.commentLines =
      ((splitLines "(").filter fun l =>
        isBlankLine l = false ∧ isCommentLine l = true).length ∧
    (analyze ⟨"bad.py", "("⟩ defaultConfig).metrics.codeLines =
      ((splitLines "(").filter fun l =>
        isBlankLine l = false ∧ isCommentLine l = false).length :=
  claim_C8_parse_failure_report ⟨"bad.py", "("⟩ defaultConfig
    ⟨"unbalanced parentheses", none⟩ rfl

/-- Claim C1 counterexample: on a concrete invocation (question "hello",
subprocess succeeding with stdout "the answer") the command handler
performs no file-reading action at all — it spawns the question-answering
subprocess with the question and displays that subprocess's output — so
the handler does not supply a SourceUnit by reading a file. -/
theorem claim_C1_counterexample :
    askQuestionHandler (some "hello") (ExecOutcome.ok "the answer") =
      [ExtAction.spawnShell (buildCommand "hello"),
        ExtAction.showInfo "the answer"] ∧
    (askQuestionHandler (some "hello") (ExecOutcome.ok "the answer")).all
      (fun a => !a.readsFile) = true := by
  decide

/-- Claim C1 as amended: when its command is invoked with a non-empty
question and the subprocess succeeds, the handler runs the
question-answering layer as a child process on the question and displays
the text it returned; it reads no file and supplies no SourceUnit. -/
theorem claim_C1_displays_answer (q out : String) (h : q ≠ "") :
    askQuestionHandler (some q) (ExecOutcome.ok out) =
      [ExtAction.spawnShell (buildCommand q), ExtAction.showInfo out] ∧
    ∀ a ∈ askQuestionHandler (some q) (ExecOutcome.ok out),
      a.readsFile = false := by
  constructor
  · simp [askQuestionHandler, h]
  · intro a ha
    simp [askQuestionHandler, h] at ha
    rcases ha with h1 | h1 <;> subst h1 <;> rfl

/-- Witness for the amended claim C1 at a concrete question and answer. -/
theorem claim_C1_displays_answer_witness :
    askQuestionHandler (some "hi") (ExecOutcome.ok "ans") =
      [ExtAction.spawnShell (buildCommand "hi"), ExtAction.showInfo "ans"] ∧
    ∀ a ∈ askQuestionHandler (some "hi") (ExecOutcome.ok "ans"),
      a.readsFile = false :=
  claim_C1_displays_answer "hi" "ans" (by decide)

/-- Claim C9: when the input box resolves to no value (the user cancelled)
or to the empty string, the `rag.askQuestion` handler performs no action
at all — in particular it spawns no child process and shows no message. -/
theorem claim_C9_empty_question_no_action :
    (∀ r, askQuestionHandler none r = []) ∧
    (∀ r, askQuestionHandler (some "") r = []) :=
  ⟨fun _ => rfl, fun _ => rfl⟩

/-- Claim C10: the executed shell command is exactly the concatenation of
`python rag_engine.py "`, the question verbatim with no escaping, and `"`;
the handler spawns exactly that string, and for a question containing a
double quote the shell's word splitting does not deliver the question as a
single intact argument (the quote toggles quoting, so `a"b` arrives as
`ab`). -/
theorem claim_C10_command_verbatim :
    (∀ q, buildCommand q = "python rag_engine.py \"" ++ q ++ "\"") ∧
    (∀ q r, q ≠ "" → (askQuestionHandler (some q) r).head? =
      some (ExtAction.spawnShell (buildCommand q))) ∧
    shellSplit (buildCommand "a\"b") = ["python", "rag_engine.py", "ab"] ∧
    ("ab" : String) ≠ "a\"b" := by
  refine ⟨fun q => rfl, fun q r h => ?_, by decide, by decide⟩
  cases r <;> simp [askQuestionHandler, h]

/-- Witness for claim C10 at a concrete question, discharging the
non-empty-question hypothesis of its spawn conjunct. -/
theorem claim_C10_command_verbatim_witness :
    (askQuestionHandler (some "hello") ExecOutcome.failed).head? =
      some (ExtAction.spawnShell (buildCommand "hello")) :=
  claim_C10_command_verbatim.2.1 "hello" ExecOutcome.failed (by decide)
